import Mathlib

/-!
Shallow embedding of src/mev_protected_trader.py (class MEVProtectedBuyer).

Machine numbers are modelled as Int (wei amounts can be negative in
intermediate Python arithmetic); Python float arithmetic on wei-sized
quantities is modelled as exact rational arithmetic, and the Python `int`
conversion as truncation toward zero.  Every chain RPC call is an oracle
field of an environment structure; a field of type `Except String t`
models a call that can raise (the string is the exception text), and an
exception caught by a try/except block is modelled by the corresponding
match on `.error`.
-/

namespace MevTrader

/-- Python `int(q)` for a float value modelled as an exact rational:
truncation toward zero, computed on the reduced numerator and
denominator (both integer divisions below have nonnegative operands, so
the rounding mode of `Int` division does not matter). -/
def pyTrunc (q : ℚ) : ℤ :=
  if 0 ≤ q.num then q.num / (q.den : ℤ) else -((-q.num) / (q.den : ℤ))

/-- Python `int(x * r)` where `x` is an integer and `r` a float literal
modelled as an exact rational. -/
def pyMul (x : ℤ) (r : ℚ) : ℤ :=
  pyTrunc ((x : ℚ) * r)

/-- One gwei in wei. -/
def gwei : ℤ := 1000000000

/-- `self.max_gas_price = Web3.to_wei(300, gwei)` (line 40). -/
def maxGasPriceC : ℤ := 300 * gwei

/-- `self.min_eth_balance = Web3.to_wei(0.01, ether)` (line 39). -/
def minEthBalanceC : ℤ := 10000000000000000

/-- Insert into an ascending list, keeping it sorted. -/
def insertSorted (x : ℤ) : List ℤ → List ℤ
  | [] => [x]
  | y :: ys => if x ≤ y then x :: y :: ys else y :: insertSorted x ys

/-- Python `sorted` on a list of integers (ascending). -/
def sortAsc (l : List ℤ) : List ℤ := l.foldr insertSorted []

/-- `sorted(prices)[len(prices)//2]` (line 106); the default 0 is never
used on the guarded nonempty path. -/
def medianOf (l : List ℤ) : ℤ := (sortAsc l).getD (l.length / 2) 0

/-- Oracle for the chain RPCs performed by `get_optimal_gas_price`.
`baseFee = none` models `get_block(latest)` raising or the block
missing the baseFeePerGas key; `pending = none` models
`get_block(pending)` raising; `pending = some none` models a falsy
pending block or one without a transactions list; each listed
transaction carries its maxFeePerGas when the field is present, `none`
when `get_transaction` raises or the field is absent (both are skipped).
`gasPrice = none` models `w3.eth.gas_price` raising. -/
structure ChainState where
  baseFee : Option ℤ
  pending : Option (Option (List (Option ℤ)))
  gasPrice : Option ℤ

/-- `pending_txns[transactions][:10]` filtered to the transactions
that yielded a maxFeePerGas (lines 95-102). -/
def sampleFees (txs : List (Option ℤ)) : List ℤ :=
  (txs.take 10).filterMap id

/-- Priority-fee selection of lines 94-111. -/
def priorityFromPending (base : ℤ) (p : Option (List (Option ℤ))) : ℤ :=
  match p with
  | none => 2 * gwei
  | some txs =>
    let fees := sampleFees txs
    if fees.isEmpty then 2 * gwei
    else min (medianOf fees - base) (3 * gwei)

/-- `get_optimal_gas_price` (lines 85-128).  The try body needs the
latest base fee and the pending block; failure of either falls to the
except handler, whose own `w3.eth.gas_price` call is unguarded: if it
also raises, the exception escapes the method (`Except.error`). -/
def get_optimal_gas_price (st : ChainState) : Except Unit (ℤ × ℤ) :=
  match st.baseFee, st.pending with
  | some base, some p =>
    let priority_fee := priorityFromPending base p
    .ok (min (pyMul (base + priority_fee) (12 / 10)) maxGasPriceC, priority_fee)
  | _, _ =>
    match st.gasPrice with
    | some gp => .ok (min (pyMul gp (12 / 10)) maxGasPriceC, pyMul gp (1 / 10))
    | none => .error ()

/-- `calculate_max_spend` (lines 69-74): balance minus an estimated gas
cost at a fixed 350000 gas limit minus the minimum reserve, floored at
zero by `max(0, int(max_spend))`. -/
def calculate_max_spend (gas_price : ℤ) (balance : ℤ) : ℤ :=
  max 0 (balance - gas_price * 350000 - minEthBalanceC)

/-- `estimate_gas_limit` (lines 76-83): `int(estimated * 1.2)` on
success, fixed 350000 fallback when the probe raises. -/
def estimate_gas_limit (probe : Option ℕ) : ℤ :=
  match probe with
  | some g => pyMul (g : ℤ) (12 / 10)
  | none => 350000

/-- `int(amounts[1] * (1 - slippage/100))`, the minimum-output formula
shared by the buy path (line 232) and the sell path (line 377). -/
def minOutput (quoted : ℕ) (slippage : ℚ) : ℤ :=
  pyTrunc ((quoted : ℚ) * (1 - slippage / 100))

/-- The amount actually traded after the affordability adjustment of
lines 215-221: the requested wei amount, replaced by `max_spend`
whenever `max_spend < amount_in_wei`. -/
def clampedSpend (max_spend : ℤ) (requestedWei : ℚ) : ℚ :=
  if (max_spend : ℚ) < requestedWei then (max_spend : ℚ) else requestedWei

/-- Oracle for the calls performed by `check_token_liquidity`.
A `.error` value carries the exception text `str(e)`. -/
structure LiqEnv where
  validTok : Except String Unit
  symbol : Except String String
  decimals : Except String ℕ
  quoteMain : Except String ℕ
  totalSupply : Except String ℕ
  quoteSmall : Except String ℕ

/-- Result of the inner `except` handler of line 193. -/
def liqInnerErr (e : String) : Bool × ℚ × String :=
  (false, 0, "Error checking Uniswap liquidity: " ++ e)

/-- `str(ZeroDivisionError)`. -/
def divZeroMsg : String := "division by zero"

/-- `check_token_liquidity` (lines 130-197), following the source order
exactly.  `quoteMain` and `quoteSmall` are the second entries of the two
`getAmountsOut` results; `ethAmount` is the float argument (in ether).
Note that `one_token_price = Web3.to_wei(1, ether) / amounts[1]` on
line 165 raises ZeroDivisionError when the quoted output is zero, so the
explicit zero-output branch of lines 168-169 is unreachable; it is kept
below to mirror the source. -/
def check_token_liquidity (env : LiqEnv) (ethAmount : ℚ) : Bool × ℚ × String :=
  match env.validTok with
  | .error e => (false, 0, "Error checking liquidity: " ++ e)
  | .ok _ =>
  match env.symbol, env.decimals with
  | .error _, _ => (false, 0, "Could not get token information. This might not be a valid ERC20 token.")
  | _, .error _ => (false, 0, "Could not get token information. This might not be a valid ERC20 token.")
  | .ok _, .ok _ =>
  match env.quoteMain with
  | .error e => liqInnerErr e
  | .ok tokens_out =>
  match env.totalSupply with
  | .error e => liqInnerErr e
  | .ok total_supply =>
  if total_supply = 0 then (false, 0, "Token has no total supply")
  else
    let liquidity_ratio : ℚ := (tokens_out : ℚ) / (total_supply : ℚ)
    if tokens_out = 0 then liqInnerErr divZeroMsg
    else if tokens_out = 0 then (false, 0, "No tokens returned for trade. Insufficient liquidity.")
    else
      match env.quoteSmall with
      | .error e => liqInnerErr e
      | .ok small_out =>
      if ethAmount = 0 ∨ small_out = 0 then liqInnerErr divZeroMsg
      else
        let price_impact : ℚ :=
          |1 - ((tokens_out : ℚ) / ethAmount) / ((small_out : ℚ) / (1 / 10))|
        if price_impact > 1 / 10 then
          (false, liquidity_ratio,
            "High price impact: " ++ toString (price_impact * 100) ++ "%. Trade might be front-run.")
        else (true, liquidity_ratio, "Sufficient liquidity")

/-- Trader state produced by `__init__` (lines 20-40).  The class never
assigns an attribute named `router_address`; `routerAddress = none`
models the missing attribute, whose lookup raises AttributeError. -/
structure Trader where
  wallet : String
  default_slippage : ℚ
  gas_multiplier : ℚ
  min_eth_balance : ℤ
  max_gas_price : ℤ
  routerAddress : Option String

/-- `__init__` (lines 20-40): fixed reserve and gas ceiling; no
statement in the constructor (or anywhere else in the class) assigns
`router_address`. -/
def initTrader (wallet : String) (slippage gasMult : ℚ) : Trader :=
  { wallet := wallet
    default_slippage := slippage
    gas_multiplier := gasMult
    min_eth_balance := minEthBalanceC
    max_gas_price := maxGasPriceC
    routerAddress := none }

/-- `str` of the AttributeError raised by reading the missing
`router_address` attribute on line 347. -/
def attributeErrMsg : String :=
  "MEVProtectedBuyer object has no attribute router_address"

/-- Oracle for the calls of `build_optimized_transaction` beyond the
liquidity check and the gas-price plan: the wallet balance read by
`calculate_max_spend`, the fresh quote of line 228, the latest block
timestamp of line 235, the nonce of line 246 and the gas-estimation
probe of `estimate_gas_limit` (`none` = the probe raised). -/
structure BuildEnv where
  validTok : Except String Unit
  liq : LiqEnv
  gasState : ChainState
  balance : ℤ
  quote2 : Except String ℕ
  latestTimestamp : Except String ℕ
  nonce : Except String ℕ
  gasProbe : Option ℕ

/-- The unsigned EIP-1559 swap transaction assembled on lines 236-252. -/
structure BuyTxn where
  value : ℚ
  min_tokens : ℤ
  maxFeePerGas : ℤ
  maxPriorityFeePerGas : ℤ
  deadline : ℕ
  nonce : ℕ
  gas : ℤ

/-- `build_optimized_transaction` (lines 199-258): validation, liquidity
check, gas plan, affordability clamp (`calculate_max_spend` /
`clampedSpend`), fresh quote, minimum-output computation, assembly.  Any
exception inside the body (including one escaping
`get_optimal_gas_price`) is caught on line 256 and yields `none`; a
failed liquidity check or a clamped amount that is not positive also
yields `none` (lines 207-209 and 223-225).  `ethAmountWei` is the
requested amount converted to wei (the source converts a float ether
amount; the round trip through `from_wei`/`to_wei` is exact). -/
def build_optimized_transaction (env : BuildEnv) (ethAmountWei : ℚ) (slippage : ℚ) :
    Option BuyTxn :=
  match env.validTok with
  | .error _ => none
  | .ok _ =>
  match check_token_liquidity env.liq (ethAmountWei / 1000000000000000000) with
  | (false, _, _) => none
  | (true, _, _) =>
  match get_optimal_gas_price env.gasState with
  | .error _ => none
  | .ok (max_fee, priority_fee) =>
  let max_spend := calculate_max_spend max_fee env.balance
  let amount_in_wei := clampedSpend max_spend ethAmountWei
  if amount_in_wei ≤ 0 then none
  else
    match env.quote2 with
    | .error _ => none
    | .ok quoted =>
    let min_tokens := minOutput quoted slippage
    match env.latestTimestamp with
    | .error _ => none
    | .ok ts =>
    match env.nonce with
    | .error _ => none
    | .ok n =>
      some { value := amount_in_wei
             min_tokens := min_tokens
             maxFeePerGas := max_fee
             maxPriorityFeePerGas := priority_fee
             deadline := ts + 180
             nonce := n
             gas := estimate_gas_limit env.gasProbe }

/-- Outcome of one iteration of the submission loop of lines 276-301:
either some exception is raised inside the iteration (broadcast failure,
receipt wait failure, or a failure after the receipt), or a confirmation
receipt with the given status is obtained and the iteration completes. -/
inductive AttemptOut where
  | raised
  | confirmed (hash : String) (status : ℕ)

/-- One step of the `for attempt in range(3)` loop: returns the result
together with the number of broadcast attempts made and the list of
sleep durations (seconds) between attempts.  The fuel starts at 3 and
the attempt index at 0; a raised iteration retries only while
`attempt < 2` (line 296), sleeping 1 second first (line 298). -/
def submitGo (outcomes : ℕ → AttemptOut) : ℕ → ℕ → Option String × ℕ × List ℕ
  | _, 0 => (none, 0, [])
  | attempt, fuel + 1 =>
    match outcomes attempt with
    | .confirmed h s => if s = 1 then (some h, 1, []) else (none, 1, [])
    | .raised =>
      if attempt < 2 then
        let r := submitGo outcomes (attempt + 1) fuel
        (r.1, r.2.1 + 1, 1 :: r.2.2)
      else (none, 1, [])

/-- The whole submit-with-retry loop of `buy_token_protected`
(lines 276-301). -/
def submitLoop (outcomes : ℕ → AttemptOut) : Option String × ℕ × List ℕ :=
  submitGo outcomes 0 3

/-- Oracle for `buy_token_protected`: the build environment, the signing
step, and the per-attempt submission outcomes. -/
structure BuyEnv where
  build : BuildEnv
  sign : Except String Unit
  outcomes : ℕ → AttemptOut

/-- `buy_token_protected` (lines 260-305): returns the transaction hash
string on success and `none` otherwise, paired with the broadcast
attempt count and inter-attempt sleeps.  The outer try/except of
line 303 turns any escaped exception into `none`. -/
def buy_token_protected (st : Trader) (env : BuyEnv) (ethAmountWei : ℚ)
    (slippage : Option ℚ) : Option String × ℕ × List ℕ :=
  let slip := slippage.getD st.default_slippage
  match build_optimized_transaction env.build ethAmountWei slip with
  | none => (none, 0, [])
  | some _ =>
    match env.sign with
    | .error _ => (none, 0, [])
    | .ok _ => submitLoop env.outcomes

/-- Confirmation receipt fields used by the sell path. -/
structure SwapReceipt where
  status : ℕ
  gasUsed : ℕ
  effectiveGasPrice : ℤ

/-- The success dictionary returned on lines 411-419. -/
structure SellOk where
  transaction_hash : String
  token_amount : ℚ
  token_symbol : String
  eth_received : ℚ
  gas_used : ℕ
  effective_gas_price : ℤ

/-- Return value of `sell_tokens`: the success dictionary, or the
failure dictionary of lines 424-427 carrying `str(e)`. -/
inductive SellResult where
  | ok (r : SellOk)
  | err (e : String)

/-- The `success` entry of the returned dictionary. -/
def SellResult.success : SellResult → Bool
  | .ok _ => true
  | .err _ => false

/-- The `error` entry of the returned dictionary (absent on success). -/
def SellResult.errorText : SellResult → Option String
  | .ok _ => none
  | .err e => some e

/-- Observable side effects of one `sell_tokens` call: how many raw
transactions were broadcast for the approval and for the swap, and the
maxFeePerGas of the swap transaction once it has been assembled. -/
structure SellTrace where
  approveSends : ℕ
  swapSends : ℕ
  builtSwapMaxFee : Option ℤ

/-- Oracle for the chain calls of `sell_tokens`, in source order.
`gasPrice1` and `gasPrice2` are the two separate `w3.eth.gas_price`
reads of lines 360-361. -/
structure SellEnv where
  checksum : Except String Unit
  loadAbi : Except String Unit
  symbol : Except String String
  decimals : Except String ℕ
  balanceOf : Except String ℕ
  allowance : Except String ℕ
  nonce1 : Except String ℕ
  gasPrice1 : Except String ℤ
  gasPrice2 : Except String ℤ
  approveBroadcast : Except String String
  approveReceipt : Except String Unit
  quote : Except String ℕ
  timeNow : ℕ
  latestBaseFee : Except String ℤ
  maxPriorityFee : Except String ℤ
  nonce2 : Except String ℕ
  swapBroadcast : Except String String
  swapReceipt : Except String SwapReceipt

/-- The approval block of lines 344-366, entered with the allowance
already read: when `allowance < amount_in_token_units` the approval
transaction is assembled (nonce, two gas-price reads), signed, broadcast
and its receipt awaited (the receipt status is ignored).  Returns the
outcome and the number of approval broadcasts performed. -/
def sellApproval (env : SellEnv) (allowance : ℕ) (units : ℤ) :
    Except String Unit × ℕ :=
  if (allowance : ℤ) < units then
    match env.nonce1 with
    | .error e => (.error e, 0)
    | .ok _ =>
    match env.gasPrice1 with
    | .error e => (.error e, 0)
    | .ok _ =>
    match env.gasPrice2 with
    | .error e => (.error e, 0)
    | .ok _ =>
    match env.approveBroadcast with
    | .error e => (.error e, 1)
    | .ok _ =>
    match env.approveReceipt with
    | .error e => (.error e, 1)
    | .ok _ => (.ok (), 1)
  else (.ok (), 0)

/-- Lines 368-421: quote, minimum-output computation, gas computation
(`base_fee * 2 + priority_fee`, line 385), swap assembly (fixed 350000
gas, deadline now + 300), broadcast, receipt wait, and the final status
check (status 1 returns the success dictionary; any other status raises
Exception("Transaction failed")).  `approves` is the number of approval
broadcasts already performed. -/
def sellSwapPhase (env : SellEnv) (symbol : String) (amount : ℚ) (_units : ℤ)
    (min_eth_received : Option ℤ) (slip : ℚ) (approves : ℕ) :
    SellResult × SellTrace :=
  match env.quote with
  | .error e => (.err e, ⟨approves, 0, none⟩)
  | .ok expected_eth =>
  let _min_eth : ℤ := min_eth_received.getD (minOutput expected_eth slip)
  match env.latestBaseFee with
  | .error e => (.err e, ⟨approves, 0, none⟩)
  | .ok base_fee =>
  match env.maxPriorityFee with
  | .error e => (.err e, ⟨approves, 0, none⟩)
  | .ok priority_fee =>
  let max_fee_per_gas := base_fee * 2 + priority_fee
  match env.nonce2 with
  | .error e => (.err e, ⟨approves, 0, none⟩)
  | .ok _ =>
  match env.swapBroadcast with
  | .error e => (.err e, ⟨approves, 1, some max_fee_per_gas⟩)
  | .ok tx_hash =>
  match env.swapReceipt with
  | .error e => (.err e, ⟨approves, 1, some max_fee_per_gas⟩)
  | .ok receipt =>
  if receipt.status = 1 then
    (.ok { transaction_hash := tx_hash
           token_amount := amount
           token_symbol := symbol
           eth_received := (expected_eth : ℚ) / 1000000000000000000
           gas_used := receipt.gasUsed
           effective_gas_price := receipt.effectiveGasPrice },
     ⟨approves, 1, some max_fee_per_gas⟩)
  else (.err "Transaction failed", ⟨approves, 1, some max_fee_per_gas⟩)

/-- `sell_tokens` (lines 307-427).  Input validation in source order:
checksum of the token address, slippage strictly inside (0, 100), ERC20
interface load, symbol/decimals/balance reads, nonzero balance,
requested amount within balance.  Reading `self.router_address` on
line 347 raises AttributeError whenever the attribute is absent
(`st.routerAddress = none`); the surrounding try/except of lines 423-427
converts every raised exception into the failure dictionary. -/
def sell_tokens (st : Trader) (env : SellEnv) (amount : ℚ)
    (min_eth_received : Option ℤ) (slippage : Option ℚ) :
    SellResult × SellTrace :=
  let t0 : SellTrace := ⟨0, 0, none⟩
  match env.checksum with
  | .error e => (.err e, t0)
  | .ok _ =>
  let slip := slippage.getD st.default_slippage
  if slip ≤ 0 ∨ 100 ≤ slip then (.err "Slippage must be between 0 and 100", t0)
  else
  match env.loadAbi with
  | .error e => (.err e, t0)
  | .ok _ =>
  match env.symbol with
  | .error e => (.err e, t0)
  | .ok symbol =>
  match env.decimals with
  | .error e => (.err e, t0)
  | .ok decimals =>
  match env.balanceOf with
  | .error e => (.err e, t0)
  | .ok token_balance =>
  if token_balance = 0 then (.err ("No " ++ symbol ++ " tokens found in wallet"), t0)
  else
  let amount_in_token_units : ℤ := pyTrunc (amount * (10 : ℚ) ^ decimals)
  if (token_balance : ℤ) < amount_in_token_units then
    (.err ("Insufficient " ++ symbol ++ " balance"), t0)
  else
  match st.routerAddress with
  | none => (.err attributeErrMsg, t0)
  | some _ =>
  match env.allowance with
  | .error e => (.err e, t0)
  | .ok allowance =>
  match sellApproval env allowance amount_in_token_units with
  | (.error e, a) => (.err e, ⟨a, 0, none⟩)
  | (.ok _, a) =>
    sellSwapPhase env symbol amount amount_in_token_units min_eth_received slip a

/-! Helper lemmas. -/

theorem pyTrunc_eq_floor {q : ℚ} (h : 0 ≤ q) : pyTrunc q = ⌊q⌋ := by
  rw [pyTrunc, if_pos (Rat.num_nonneg.2 h), Rat.floor_def]

theorem pyTrunc_nonneg {q : ℚ} (h : 0 ≤ q) : 0 ≤ pyTrunc q := by
  rw [pyTrunc_eq_floor h]
  exact Int.floor_nonneg.2 h

theorem minOutput_eq_floor {quoted : ℕ} {s : ℚ} (h : s ≤ 100) :
    minOutput quoted s = ⌊(quoted : ℚ) * (1 - s / 100)⌋ := by
  have hs : (0 : ℚ) ≤ 1 - s / 100 := by linarith
  exact pyTrunc_eq_floor (mul_nonneg (by positivity) hs)

theorem sellSwapPhase_swapSends_le_one (env : SellEnv) (symbol : String)
    (amount : ℚ) (units : ℤ) (me : Option ℤ) (slip : ℚ) (a : ℕ) :
    (sellSwapPhase env symbol amount units me slip a).2.swapSends ≤ 1 := by
  unfold sellSwapPhase
  rcases env.quote with e | q <;> simp
  rcases env.latestBaseFee with e | b <;> simp
  rcases env.maxPriorityFee with e | p <;> simp
  rcases env.nonce2 with e | n <;> simp
  rcases env.swapBroadcast with e | h <;> simp
  rcases env.swapReceipt with e | r <;> simp
  split <;> simp

theorem sell_tokens_swapSends_le_one (st : Trader) (env : SellEnv) (amount : ℚ)
    (me : Option ℤ) (sl : Option ℚ) :
    (sell_tokens st env amount me sl).2.swapSends ≤ 1 := by
  unfold sell_tokens
  rcases env.checksum with e | u
  · simp
  simp only []
  split
  · simp
  rcases env.loadAbi with e | u <;> simp
  rcases env.symbol with e | sy <;> simp
  rcases env.decimals with e | de <;> simp
  rcases env.balanceOf with e | bal <;> simp
  split
  · simp
  split
  · simp
  rcases h : st.routerAddress with _ | r <;> simp
  rcases env.allowance with e | al <;> simp
  split
  · simp
  · exact sellSwapPhase_swapSends_le_one ..

theorem sell_tokens_router_none (st : Trader) (env : SellEnv) (amount : ℚ)
    (me : Option ℤ) (sl : Option ℚ) (h : st.routerAddress = none) :
    ∃ e, sell_tokens st env amount me sl = (.err e, ⟨0, 0, none⟩) := by
  unfold sell_tokens
  rcases env.checksum with e | u
  · exact ⟨e, rfl⟩
  simp only []
  split
  · exact ⟨_, rfl⟩
  rcases env.loadAbi with e | u
  · exact ⟨e, rfl⟩
  rcases env.symbol with e | sy
  · exact ⟨e, rfl⟩
  rcases env.decimals with e | de
  · exact ⟨e, rfl⟩
  rcases env.balanceOf with e | bal
  · exact ⟨e, rfl⟩
  simp only []
  split
  · exact ⟨_, rfl⟩
  split
  · exact ⟨_, rfl⟩
  rw [h]
  exact ⟨attributeErrMsg, rfl⟩

/-! Claim theorems. -/

/-- C2: the attribute `router_address` read by `sell_tokens` is never
assigned by `__init__` (nor anywhere else in the class), so its lookup
on line 347 raises AttributeError; consequently `sell_tokens` returns
the failure dictionary (success = False with an error string) for every
input and every chain behaviour — in particular for every input passing
input validation — and the sell swap transaction is never assembled nor
broadcast (zero swap broadcasts, no assembled swap fee, and also zero
approval broadcasts). -/
theorem C2_sell_always_fails (w : String) (ds gm : ℚ) (env : SellEnv)
    (amount : ℚ) (me : Option ℤ) (sl : Option ℚ) :
    (initTrader w ds gm).routerAddress = none
    ∧ ∃ e, sell_tokens (initTrader w ds gm) env amount me sl =
        (.err e, ⟨0, 0, none⟩) :=
  ⟨rfl, sell_tokens_router_none _ _ _ _ _ rfl⟩

/-- C6: the spend cap of `calculate_max_spend` equals
max(0, balance − maxFee × 350000 − reserve); the clamped amount of
`build_optimized_transaction` is never negative, never exceeds the
(zero-floored) difference balance − reserve, and never exceeds the
requested amount; and a clamped amount of zero makes the build return
no transaction. -/
theorem C6_spend_clamp (env : BuildEnv) (mf pf : ℤ) (requestedWei slip : ℚ)
    (hmf : 0 ≤ mf) (hreq : 0 ≤ requestedWei)
    (hgas : get_optimal_gas_price env.gasState = .ok (mf, pf)) :
    calculate_max_spend mf env.balance
        = max 0 (env.balance - mf * 350000 - minEthBalanceC)
    ∧ 0 ≤ clampedSpend (calculate_max_spend mf env.balance) requestedWei
    ∧ clampedSpend (calculate_max_spend mf env.balance) requestedWei ≤ requestedWei
    ∧ clampedSpend (calculate_max_spend mf env.balance) requestedWei
        ≤ ((max 0 (env.balance - minEthBalanceC) : ℤ) : ℚ)
    ∧ (clampedSpend (calculate_max_spend mf env.balance) requestedWei = 0 →
        build_optimized_transaction env requestedWei slip = none) := by
  have hms : (0 : ℤ) ≤ calculate_max_spend mf env.balance := le_max_left _ _
  have hmono : calculate_max_spend mf env.balance ≤ max 0 (env.balance - minEthBalanceC) := by
    apply max_le (le_max_left _ _)
    have : 0 ≤ mf * 350000 := mul_nonneg hmf (by norm_num)
    have h2 : env.balance - mf * 350000 - minEthBalanceC ≤ env.balance - minEthBalanceC := by
      linarith
    exact le_trans h2 (le_max_right _ _)
  have hclle : clampedSpend (calculate_max_spend mf env.balance) requestedWei
      ≤ ((calculate_max_spend mf env.balance : ℤ) : ℚ) := by
    unfold clampedSpend
    split
    · exact le_refl _
    · exact le_of_not_lt (by assumption)
  refine ⟨rfl, ?_, ?_, ?_, ?_⟩
  · unfold clampedSpend
    split
    · exact_mod_cast hms
    · exact hreq
  · unfold clampedSpend
    split
    · exact le_of_lt (by assumption)
    · exact le_refl _
  · exact le_trans hclle (by exact_mod_cast hmono)
  · intro hz
    unfold build_optimized_transaction
    rcases env.validTok with e | u
    · rfl
    rcases hc : check_token_liquidity env.liq (requestedWei / 1000000000000000000)
      with ⟨b, r, m⟩
    rcases b
    · simp [hc]
    · simp only [hc, hgas]
      rw [hz]
      simp

/-- C7: for every quoted output and slippage in (0,100), the minimum
output written into the swap equals floor(quoted × (1 − slippage/100)),
and it is antitone in the slippage (a larger slippage never yields a
larger minimum output for the same quote). -/
theorem C7_min_output (quoted : ℕ) (s s1 s2 : ℚ)
    (_hs0 : 0 < s) (hs1 : s < 100) (_h10 : 0 < s1) (h12 : s1 ≤ s2) (h2 : s2 < 100) :
    minOutput quoted s = ⌊(quoted : ℚ) * (1 - s / 100)⌋
    ∧ minOutput quoted s2 ≤ minOutput quoted s1 := by
  constructor
  · exact minOutput_eq_floor hs1.le
  · rw [minOutput_eq_floor h2.le, minOutput_eq_floor (lt_of_le_of_lt h12 h2).le]
    apply Int.floor_le_floor
    have h : 1 - s2 / 100 ≤ 1 - s1 / 100 := by linarith
    exact mul_le_mul_of_nonneg_left h (by positivity)

/-- Witness for C7 at quoted output 7 with slippages 25 and 50:
floor(7 × 0.75) = 5 and floor(7 × 0.5) = 3 ≤ 5. -/
theorem C7_min_output_witness :
    (minOutput 7 25 = ⌊(7 : ℚ) * (1 - 25 / 100)⌋ ∧ minOutput 7 50 ≤ minOutput 7 25)
    ∧ minOutput 7 25 = 5 ∧ minOutput 7 50 = 3 := by
  refine ⟨C7_min_output 7 25 25 50 (by norm_num) (by norm_num) (by norm_num)
    (by norm_num) (by norm_num), ?_, ?_⟩
  · norm_num [minOutput, pyTrunc]
  · norm_num [minOutput, pyTrunc]

/-- A liquidity oracle used only to instantiate witnesses. -/
def liqEnvAny : LiqEnv :=
  ⟨.error "x", .error "x", .error "x", .error "x", .error "x", .error "x"⟩

/-- Concrete build environment for the C6 witness: zero balance, a
chain state whose pending block is falsy (default 2 gwei priority
fee). -/
def buildEnvW : BuildEnv :=
  { validTok := .ok ()
    liq := liqEnvAny
    gasState := ⟨some 0, some none, none⟩
    balance := 0
    quote2 := .ok 1
    latestTimestamp := .ok 0
    nonce := .ok 0
    gasProbe := none }

/-- Witness for C6: with a zero balance and max fee 2400000000 the cap
is 0, a requested amount of 1 ETH (in wei) clamps to 0, and the build
aborts with no transaction. -/
theorem C6_spend_clamp_witness :
    (calculate_max_spend 2400000000 buildEnvW.balance
        = max 0 (buildEnvW.balance - 2400000000 * 350000 - minEthBalanceC)
      ∧ 0 ≤ clampedSpend (calculate_max_spend 2400000000 buildEnvW.balance)
          1000000000000000000
      ∧ clampedSpend (calculate_max_spend 2400000000 buildEnvW.balance)
          1000000000000000000 ≤ 1000000000000000000
      ∧ clampedSpend (calculate_max_spend 2400000000 buildEnvW.balance)
          1000000000000000000
          ≤ ((max 0 (buildEnvW.balance - minEthBalanceC) : ℤ) : ℚ)
      ∧ (clampedSpend (calculate_max_spend 2400000000 buildEnvW.balance)
          1000000000000000000 = 0 →
          build_optimized_transaction buildEnvW 1000000000000000000 1 = none))
    ∧ calculate_max_spend 2400000000 buildEnvW.balance = 0
    ∧ build_optimized_transaction buildEnvW 1000000000000000000 1 = none := by
  have hgas : get_optimal_gas_price buildEnvW.gasState = .ok (2400000000, 2000000000) := by
    show get_optimal_gas_price ⟨some 0, some none, none⟩ = _
    simp only [get_optimal_gas_price, priorityFromPending]
    norm_num [pyMul, pyTrunc, maxGasPriceC, gwei, min_def]
  have hmain := C6_spend_clamp buildEnvW 2400000000 2000000000 1000000000000000000 1
    (by norm_num) (by norm_num) hgas
  have hcap : calculate_max_spend 2400000000 buildEnvW.balance = 0 := by
    norm_num [calculate_max_spend, buildEnvW, minEthBalanceC]
  have hclamp : clampedSpend (calculate_max_spend 2400000000 buildEnvW.balance)
      1000000000000000000 = 0 := by
    rw [hcap]
    norm_num [clampedSpend]
  exact ⟨hmain, hcap, hmain.2.2.2.2 hclamp⟩

/-- C8: the public entry points return every outcome as data:
`buy_token_protected` always produces a transaction hash string or the
absent value, and `sell_tokens` always produces a dictionary with an
explicit success flag that carries an error string whenever the flag is
false. -/
theorem C8_total_as_data :
    (∀ (st : Trader) (env : BuyEnv) (w : ℚ) (sl : Option ℚ),
        (buy_token_protected st env w sl).1 = none
        ∨ ∃ h, (buy_token_protected st env w sl).1 = some h)
    ∧ (∀ (st : Trader) (env : SellEnv) (a : ℚ) (me : Option ℤ) (sl : Option ℚ),
        (sell_tokens st env a me sl).1.success = true
        ∨ ((sell_tokens st env a me sl).1.success = false
            ∧ ∃ e, (sell_tokens st env a me sl).1.errorText = some e)) := by
  constructor
  · intro st env w sl
    rcases h : (buy_token_protected st env w sl).1 with _ | hh
    · exact .inl rfl
    · exact .inr ⟨hh, rfl⟩
  · intro st env a me sl
    rcases h : (sell_tokens st env a me sl).1 with r | e
    · exact .inl rfl
    · exact .inr ⟨rfl, e, rfl⟩

/-- C1 (amended): every max fee returned by `get_optimal_gas_price` is
capped by the configured ceiling, in the pending-pool branch and in the
fetch-failure fallback branch alike.  (The sell path computes its max
fee as baseFee × 2 + priorityFee without any cap; see the
counterexample `C1_sell_fee_uncapped`.) -/
theorem C1_gas_plan_capped (st : ChainState) (mf pf : ℤ)
    (h : get_optimal_gas_price st = .ok (mf, pf)) : mf ≤ maxGasPriceC := by
  rcases st with ⟨bf, pd, gp⟩
  unfold get_optimal_gas_price at h
  rcases bf with _ | base
  · rcases gp with _ | g
    · simp at h
    · simp only [Except.ok.injEq, Prod.mk.injEq] at h
      rw [← h.1]
      exact min_le_right _ _
  · rcases pd with _ | p
    · rcases gp with _ | g
      · simp at h
      · simp only [Except.ok.injEq, Prod.mk.injEq] at h
        rw [← h.1]
        exact min_le_right _ _
    · simp only [Except.ok.injEq, Prod.mk.injEq] at h
      rw [← h.1]
      exact min_le_right _ _

/-- Witness for C1: a chain state with base fee 0 and a falsy pending
block yields the plan (2400000000, 2000000000), whose max fee is below
the 300 gwei ceiling. -/
theorem C1_gas_plan_capped_witness :
    get_optimal_gas_price ⟨some 0, some none, none⟩ = .ok (2400000000, 2000000000)
    ∧ (2400000000 : ℤ) ≤ maxGasPriceC := by
  have h : get_optimal_gas_price ⟨some 0, some none, none⟩ =
      .ok (2400000000, 2000000000) := by
    simp only [get_optimal_gas_price, priorityFromPending]
    norm_num [pyMul, pyTrunc, maxGasPriceC, gwei, min_def]
  exact ⟨h, C1_gas_plan_capped _ _ _ h⟩

/-- C3 (amended): `get_optimal_gas_price` returns a plan whenever its
fallback gas-price fetch succeeds, and also whenever the primary fetches
succeed; and on any primary-fetch failure the returned plan is exactly
(min(gasPrice × 1.2, ceiling), trunc(gasPrice × 0.1)) — provided the
fallback fetch itself succeeds.  (When every fetch fails the exception
escapes; see `C3_error_when_all_fetches_fail`.) -/
theorem C3_fallback_plan :
    (∀ (st : ChainState) (gp : ℤ), st.gasPrice = some gp →
        ∃ p, get_optimal_gas_price st = .ok p)
    ∧ (∀ (st : ChainState) (b : ℤ) (pd : Option (List (Option ℤ))),
        st.baseFee = some b → st.pending = some pd →
        ∃ p, get_optimal_gas_price st = .ok p)
    ∧ (∀ (st : ChainState) (gp : ℤ), (st.baseFee = none ∨ st.pending = none) →
        st.gasPrice = some gp →
        get_optimal_gas_price st =
          .ok (min (pyMul gp (12 / 10)) maxGasPriceC, pyMul gp (1 / 10))) := by
  refine ⟨?_, ?_, ?_⟩
  · intro st g hg
    rcases st with ⟨bf, pd, gp⟩
    simp only [ChainState.gasPrice] at hg
    subst hg
    rcases bf with _ | base
    · exact ⟨_, rfl⟩
    · rcases pd with _ | p
      · exact ⟨_, rfl⟩
      · exact ⟨_, rfl⟩
  · intro st b pd hb hp
    rcases st with ⟨bf, pdd, gp⟩
    simp only [ChainState.baseFee, ChainState.pending] at hb hp
    subst hb; subst hp
    exact ⟨_, rfl⟩
  · intro st g hfail hg
    rcases st with ⟨bf, pd, gp⟩
    simp only [ChainState.baseFee, ChainState.pending] at hfail
    simp only [ChainState.gasPrice] at hg
    subst hg
    rcases hfail with h | h
    · subst h
      rfl
    · subst h
      rcases bf with _ | base
      · rfl
      · rfl

/-- Witness for C3: with both primary fetches failing and a current gas
price of 30 gwei, the fallback plan is (36 gwei, 3 gwei). -/
theorem C3_fallback_plan_witness :
    ((⟨none, none, some 30000000000⟩ : ChainState).baseFee = none
        ∨ (⟨none, none, some 30000000000⟩ : ChainState).pending = none)
    ∧ get_optimal_gas_price ⟨none, none, some 30000000000⟩ =
        .ok (min (pyMul 30000000000 (12 / 10)) maxGasPriceC, pyMul 30000000000 (1 / 10))
    ∧ get_optimal_gas_price ⟨none, none, some 30000000000⟩ =
        .ok (36000000000, 3000000000) := by
  refine ⟨.inl rfl, C3_fallback_plan.2.2 _ 30000000000 (.inl rfl) rfl, ?_⟩
  simp only [get_optimal_gas_price]
  norm_num [pyMul, pyTrunc, maxGasPriceC, gwei, min_def]

/-- Counterexample for C3 as stated: when the primary fetches fail and
the except handler's own gas-price fetch also fails, the exception
escapes `get_optimal_gas_price` — the method is not total under every
chain-client behaviour. -/
theorem C3_error_when_all_fetches_fail :
    get_optimal_gas_price ⟨none, none, none⟩ = .error () := rfl

/-- C10: whenever pending-pool samples exist and their median declared
max fee is below the current base fee, the priority fee returned by
`get_optimal_gas_price` is the negative difference median − baseFee
(no flooring at zero), and the resulting max fee can be below the base
fee itself: with base fee 100 gwei and a single sampled fee of 10 gwei
the plan is (12 gwei, −90 gwei). -/
theorem C10_negative_priority :
    (∀ (st : ChainState) (b : ℤ) (l : List (Option ℤ)),
        st.baseFee = some b → st.pending = some (some l) →
        sampleFees l ≠ [] → medianOf (sampleFees l) < b →
        get_optimal_gas_price st =
          .ok (min (pyMul (medianOf (sampleFees l)) (12 / 10)) maxGasPriceC,
               medianOf (sampleFees l) - b)
        ∧ medianOf (sampleFees l) - b < 0)
    ∧ get_optimal_gas_price ⟨some 100000000000, some (some [some 10000000000]), none⟩ =
        .ok (12000000000, -90000000000)
    ∧ (12000000000 : ℤ) < 100000000000 := by
  refine ⟨?_, ?_, by norm_num⟩
  · intro st b l hb hp hne hlt
    rcases st with ⟨bf, pd, gp⟩
    simp only [ChainState.baseFee, ChainState.pending] at hb hp
    subst hb; subst hp
    have hie : (sampleFees l).isEmpty = false := by
      rcases h : sampleFees l with _ | ⟨x, xs⟩
      · exact absurd h hne
      · rfl
    have hpf : priorityFromPending b (some l) = medianOf (sampleFees l) - b := by
      simp only [priorityFromPending, hie]
      simp only [Bool.false_eq_true, if_false]
      apply min_eq_left
      have : (0 : ℤ) ≤ 3 * gwei := by norm_num [gwei]
      linarith
    constructor
    · show Except.ok _ = _
      rw [hpf]
      have hbm : b + (medianOf (sampleFees l) - b) = medianOf (sampleFees l) := by ring
      rw [hbm]
    · linarith
  · simp only [get_optimal_gas_price, priorityFromPending, sampleFees, medianOf,
      sortAsc, insertSorted, List.take, List.filterMap, List.foldr, List.length,
      List.getD, List.get?]
    norm_num [pyMul, pyTrunc, maxGasPriceC, gwei, min_def]

/-- Witness for C10 at the concrete state with base fee 100 gwei and
one pending sample of 10 gwei. -/
theorem C10_negative_priority_witness :
    get_optimal_gas_price ⟨some 100000000000, some (some [some 10000000000]), none⟩ =
      .ok (min (pyMul (medianOf (sampleFees [some 10000000000])) (12 / 10)) maxGasPriceC,
           medianOf (sampleFees [some 10000000000]) - 100000000000)
    ∧ medianOf (sampleFees [some 10000000000]) - 100000000000 < 0 :=
  C10_negative_priority.1 ⟨some 100000000000, some (some [some 10000000000]), none⟩
    100000000000 [some 10000000000] rfl rfl (by decide) (by decide)

/-- C5 (amended): for the buy path's submission loop, persistent
broadcast failure makes exactly 3 attempts with a fixed 1-second pause
between consecutive attempts, first-try success makes exactly 1
attempt, and a receipt with status 0 yields a failure with no further
attempt; the sell path, by contrast, broadcasts its swap at most once
(see `C5_sell_single_attempt`). -/
theorem C5_retry_discipline :
    (∀ outcomes : ℕ → AttemptOut, (∀ a, outcomes a = .raised) →
        submitLoop outcomes = (none, 3, [1, 1]))
    ∧ (∀ (outcomes : ℕ → AttemptOut) (h : String), outcomes 0 = .confirmed h 1 →
        submitLoop outcomes = (some h, 1, []))
    ∧ (∀ (outcomes : ℕ → AttemptOut) (h : String), outcomes 0 = .confirmed h 0 →
        submitLoop outcomes = (none, 1, []))
    ∧ (∀ (st : Trader) (env : SellEnv) (amount : ℚ) (me : Option ℤ) (sl : Option ℚ),
        (sell_tokens st env amount me sl).2.swapSends ≤ 1) := by
  refine ⟨?_, ?_, ?_, sell_tokens_swapSends_le_one⟩
  · intro o h
    simp [submitLoop, submitGo, h 0, h 1, h 2]
  · intro o hh h
    simp [submitLoop, submitGo, h]
  · intro o hh h
    simp [submitLoop, submitGo, h]

/-- Witness for C5: the three retry-discipline facts at concrete
outcome functions. -/
theorem C5_retry_discipline_witness :
    submitLoop (fun _ => .raised) = (none, 3, [1, 1])
    ∧ submitLoop (fun _ => .confirmed "0xabc" 1) = (some "0xabc", 1, [])
    ∧ submitLoop (fun _ => .confirmed "0xabc" 0) = (none, 1, []) :=
  ⟨C5_retry_discipline.1 _ (fun _ => rfl), C5_retry_discipline.2.1 _ "0xabc" rfl,
    C5_retry_discipline.2.2.1 _ "0xabc" rfl⟩

/-- A trader state with the router attribute present, used to exercise
the code of the sell path that follows the allowance read.  (The shipped
`__init__` never produces such a state; see C2.) -/
def traderR : Trader :=
  { wallet := "w", default_slippage := 1, gas_multiplier := 1,
    min_eth_balance := minEthBalanceC, max_gas_price := maxGasPriceC,
    routerAddress := some "0xRouter" }

/-- Sell oracle: every call succeeds, base fee 300 gwei (equal to the
configured ceiling), priority fee 1 gwei, allowance already sufficient,
token with 0 decimals and balance 10. -/
def sellEnvFee : SellEnv :=
  { checksum := .ok (), loadAbi := .ok (), symbol := .ok "TKN",
    decimals := .ok 0, balanceOf := .ok 10, allowance := .ok 10,
    nonce1 := .ok 0, gasPrice1 := .ok 1, gasPrice2 := .ok 1,
    approveBroadcast := .ok "ah", approveReceipt := .ok (),
    quote := .ok 100, timeNow := 0,
    latestBaseFee := .ok 300000000000, maxPriorityFee := .ok 1000000000,
    nonce2 := .ok 0, swapBroadcast := .ok "0xswap",
    swapReceipt := .ok ⟨1, 21000, 5⟩ }

/-- Counterexample for C1 as stated: on the sell path the swap is
assembled with maxFeePerGas = baseFee × 2 + priorityFee = 601 gwei,
strictly above the 300 gwei ceiling, and the trade is nevertheless
broadcast and succeeds. -/
theorem C1_sell_fee_uncapped :
    (sell_tokens traderR sellEnvFee 1 (some 1) (some 1)).2.builtSwapMaxFee
        = some 601000000000
    ∧ (sell_tokens traderR sellEnvFee 1 (some 1) (some 1)).1.success = true
    ∧ ¬ (601000000000 : ℤ) ≤ maxGasPriceC := by
  refine ⟨?_, ?_, by norm_num [maxGasPriceC, gwei]⟩
  · simp only [sell_tokens, sellApproval, sellSwapPhase, traderR, sellEnvFee,
      Option.getD]
    norm_num [pyTrunc]
  · simp only [sell_tokens, sellApproval, sellSwapPhase, traderR, sellEnvFee,
      Option.getD]
    norm_num [pyTrunc, SellResult.success]

/-- The same sell oracle with a failing swap broadcast. -/
def sellEnvBcastFail : SellEnv :=
  { sellEnvFee with swapBroadcast := .error "connection error" }

/-- Counterexample for C5 as stated: on the sell path a persistent
broadcast failure results in exactly one broadcast attempt, not 3 —
the sell path has no retry loop. -/
theorem C5_sell_single_attempt :
    (sell_tokens traderR sellEnvBcastFail 1 (some 1) (some 1)).2.swapSends = 1
    ∧ (sell_tokens traderR sellEnvBcastFail 1 (some 1) (some 1)).1.success = false
    ∧ (1 : ℕ) ≠ 3 := by
  refine ⟨?_, ?_, by decide⟩
  · simp only [sell_tokens, sellApproval, sellSwapPhase, traderR, sellEnvBcastFail,
      sellEnvFee, Option.getD]
    norm_num [pyTrunc]
  · simp only [sell_tokens, sellApproval, sellSwapPhase, traderR, sellEnvBcastFail,
      sellEnvFee, Option.getD]
    norm_num [pyTrunc, SellResult.success]

/-- Liquidity oracle with nonzero total supply (1000) and a main quote
of exactly 0 output tokens. -/
def liqEnvZeroOut : LiqEnv := ⟨.ok (), .ok "TKN", .ok 18, .ok 0, .ok 1000, .ok 5⟩

/-- C4 (code bug): for a token with nonzero total supply whose quote
returns zero output, `check_token_liquidity` does return ok = false, but
the reason is the generic inner exception text for the ZeroDivisionError
raised on line 165 — not the dedicated zero-output message of
lines 168-169, which is unreachable because the division precedes the
check. -/
theorem C4_zero_output_reason :
    check_token_liquidity liqEnvZeroOut 1
      = (false, 0, "Error checking Uniswap liquidity: division by zero")
    ∧ "Error checking Uniswap liquidity: division by zero"
        ≠ "No tokens returned for trade. Insufficient liquidity." :=
  ⟨rfl, by decide⟩

/-- Sell oracle with zero allowance: an approval would be required for
any positive amount. -/
def sellEnvNeedsApproval : SellEnv :=
  { sellEnvFee with allowance := .ok 0 }

/-- C9 (code bug): on the shipped trader state the allowance (0) is
strictly below the requested amount (1 token unit), so the claimed
approval transaction should be built and submitted; instead the
AttributeError on `router_address` aborts the sell before the allowance
is even read, zero approval broadcasts occur, and the call returns the
failure dictionary. -/
theorem C9_no_approval :
    sell_tokens (initTrader "w" 1 1) sellEnvNeedsApproval 1 none (some 1)
      = (.err attributeErrMsg, ⟨0, 0, none⟩)
    ∧ sellEnvNeedsApproval.allowance = .ok 0
    ∧ pyTrunc ((1 : ℚ) * (10 : ℚ) ^ (0 : ℕ)) = 1
    ∧ (0 : ℤ) < 1 := by
  refine ⟨?_, rfl, by norm_num [pyTrunc], by norm_num⟩
  simp only [sell_tokens, initTrader, sellEnvNeedsApproval, sellEnvFee, Option.getD]
  norm_num [pyTrunc]

end MevTrader
